import Mathlib

/-!
Verification of the Pomodoro countdown session engine from
`src/pages/tools/pomodoro.tsx` and the persisted-state hook
`use-persisted-state.ts`.

The repository contains two snapshot variants of the Pomodoro tool in the
same file.  The first variant routes all persistence through the generic
`usePersistedState` hook, with `deserializeState` / `serializeState` at the
storage boundary.  The second variant talks to local storage directly and
restores through `getInitialState`, which additionally understands a legacy
single `mode` field.  Both variants are embedded below; every definition is
a direct transcription of the corresponding TypeScript function.

JavaScript numbers are modelled as `Int` (all quantities involved are
integers: seconds, minutes, epoch milliseconds, session counts).
`Math.floor(x / 1000)` on an integer difference is `Int.fdiv · 1000`.
Fields that may be absent from a persisted JSON blob are `Option`s, and
JavaScript truthiness of a possibly-absent number (`stored.savedAt`) is
modelled by `savedAtTruthy`.
-/

namespace Tools.Pomodoro

/-- `type TimerMode = 'work' | 'shortBreak' | 'longBreak'` -/
inductive TimerMode where
  | work
  | shortBreak
  | longBreak
deriving DecidableEq, Repr

/-- `interface TimerConfig` : durations in minutes plus the long-break cadence. -/
structure TimerConfig where
  work : Int
  shortBreak : Int
  longBreak : Int
  sessionsBeforeLongBreak : Int
deriving DecidableEq, Repr

/-- `config[m]` for a phase key `m`. -/
def TimerConfig.get (c : TimerConfig) : TimerMode → Int
  | .work => c.work
  | .shortBreak => c.shortBreak
  | .longBreak => c.longBreak

/-- The four editable keys of `TimerConfig` (`keyof TimerConfig`). -/
inductive ConfigKey where
  | work
  | shortBreak
  | longBreak
  | sessionsBeforeLongBreak
deriving DecidableEq, Repr

/-- `{ ...prev.config, [key]: value }` -/
def TimerConfig.set (c : TimerConfig) : ConfigKey → Int → TimerConfig
  | .work, v => { c with work := v }
  | .shortBreak, v => { c with shortBreak := v }
  | .longBreak, v => { c with longBreak := v }
  | .sessionsBeforeLongBreak, v => { c with sessionsBeforeLongBreak := v }

/-- The phase a config key names, when it names one. -/
def ConfigKey.toMode : ConfigKey → Option TimerMode
  | .work => some .work
  | .shortBreak => some .shortBreak
  | .longBreak => some .longBreak
  | .sessionsBeforeLongBreak => none

/-- `type Timers = Record<TimerMode, number>` : remaining whole seconds per phase. -/
structure Timers where
  work : Int
  shortBreak : Int
  longBreak : Int
deriving DecidableEq, Repr

/-- `timers[m]` -/
def Timers.get (t : Timers) : TimerMode → Int
  | .work => t.work
  | .shortBreak => t.shortBreak
  | .longBreak => t.longBreak

/-- `{ ...timers, [m]: v }` -/
def Timers.set (t : Timers) : TimerMode → Int → Timers
  | .work, v => { t with work := v }
  | .shortBreak, v => { t with shortBreak := v }
  | .longBreak, v => { t with longBreak := v }

/-- `DEFAULT_CONFIG` -/
def DEFAULT_CONFIG : TimerConfig :=
  { work := 25, shortBreak := 5, longBreak := 15, sessionsBeforeLongBreak := 4 }

/-- `getDefaultTimers(config)` : every phase at its full configured duration. -/
def getDefaultTimers (config : TimerConfig) : Timers :=
  { work := config.work * 60
    shortBreak := config.shortBreak * 60
    longBreak := config.longBreak * 60 }

/-- `interface PomodoroState` : the in-memory session state. -/
structure PomodoroState where
  activeMode : TimerMode
  viewMode : TimerMode
  timers : Timers
  isRunning : Bool
  completedSessions : Int
  config : TimerConfig
deriving DecidableEq, Repr

/-- `DEFAULT_STATE` -/
def DEFAULT_STATE : PomodoroState :=
  { config := DEFAULT_CONFIG
    activeMode := .work
    viewMode := .work
    timers := getDefaultTimers DEFAULT_CONFIG
    isRunning := false
    completedSessions := 0 }

/-- The persisted JSON blob.  Every field may be absent at runtime
(`Partial<StoredState>` in the second variant; the first variant reads the
same blob and applies `??` defaults field by field).  `mode` is the legacy
single-field layout that predates `activeMode` / `viewMode`. -/
structure StoredState where
  activeMode : Option TimerMode
  viewMode : Option TimerMode
  timers : Option Timers
  isRunning : Option Bool
  completedSessions : Option Int
  config : Option TimerConfig
  savedAt : Option Int
  mode : Option TimerMode
deriving DecidableEq, Repr

/-- JavaScript truthiness of `stored.savedAt`: absent (`undefined`) and `0`
are both falsy. -/
def savedAtTruthy : Option Int → Bool
  | some t => t != 0
  | none => false

/-- `deserializeState(stored)` from the `usePersistedState` variant, with the
wall clock `Date.now()` passed explicitly as `now`.  Catch-up subtraction
runs only when `isRunning && stored.savedAt` is truthy. -/
def deserializeState (now : Int) (stored : StoredState) : PomodoroState :=
  let config := stored.config.getD DEFAULT_CONFIG
  let activeMode := stored.activeMode.getD .work
  let viewMode := stored.viewMode.getD .work
  let timers := stored.timers.getD (getDefaultTimers config)
  let isRunning := stored.isRunning.getD false
  let completedSessions := stored.completedSessions.getD 0
  if isRunning && savedAtTruthy stored.savedAt then
    let savedAt := stored.savedAt.getD 0
    let elapsedSeconds := (now - savedAt).fdiv 1000
    let timers2 := timers.set activeMode (max 0 (timers.get activeMode - elapsedSeconds))
    let isRunning2 := if timers2.get activeMode = 0 then false else isRunning
    { activeMode := activeMode, viewMode := viewMode, timers := timers2
      isRunning := isRunning2, completedSessions := completedSessions, config := config }
  else
    { activeMode := activeMode, viewMode := viewMode, timers := timers
      isRunning := isRunning, completedSessions := completedSessions, config := config }

/-- `serializeState(state)` : the state plus a fresh `savedAt` timestamp. -/
def serializeState (now : Int) (s : PomodoroState) : StoredState :=
  { activeMode := some s.activeMode
    viewMode := some s.viewMode
    timers := some s.timers
    isRunning := some s.isRunning
    completedSessions := some s.completedSessions
    config := some s.config
    savedAt := some now
    mode := none }

/-- `stored.activeMode ?? stored.mode ?? 'work'` -/
def legacyGet (primary legacy : Option TimerMode) : TimerMode :=
  match primary with
  | some m => m
  | none =>
    match legacy with
    | some m => m
    | none => .work

/-- `getInitialState()` from the second snapshot variant: `stored` is the
parsed blob (or `none` when loading failed or nothing was stored), `now` is
`Date.now()`.  Unlike `deserializeState`, missing `activeMode` / `viewMode`
fall back to the legacy `mode` field before defaulting to `work`. -/
def getInitialState (now : Int) (stored? : Option StoredState) : PomodoroState :=
  match stored? with
  | none => DEFAULT_STATE
  | some stored =>
    let config := stored.config.getD DEFAULT_CONFIG
    let activeMode := legacyGet stored.activeMode stored.mode
    let viewMode := legacyGet stored.viewMode stored.mode
    let timers := stored.timers.getD (getDefaultTimers config)
    let isRunning := stored.isRunning.getD false
    let completedSessions := stored.completedSessions.getD 0
    if isRunning && savedAtTruthy stored.savedAt then
      let savedAt := stored.savedAt.getD 0
      let elapsedSeconds := (now - savedAt).fdiv 1000
      let timers2 := timers.set activeMode (max 0 (timers.get activeMode - elapsedSeconds))
      let isRunning2 := if timers2.get activeMode = 0 then false else isRunning
      { activeMode := activeMode, viewMode := viewMode, timers := timers2
        isRunning := isRunning2, completedSessions := completedSessions, config := config }
    else
      { activeMode := activeMode, viewMode := viewMode, timers := timers
        isRunning := isRunning, completedSessions := completedSessions, config := config }

/-- The body of `completionHandlerRef.current` (the `setState` updater):
the `completePhase()` transition of the spec.  The audible notification is a
stateless side effect and is not part of the state transition.  JavaScript
`%` on integers is the truncated remainder, `Int.tmod`. -/
def completePhase (prev : PomodoroState) : PomodoroState :=
  let newCompletedSessions :=
    if prev.activeMode = .work then prev.completedSessions + 1 else prev.completedSessions
  let nextMode :=
    if prev.activeMode = .work then
      if newCompletedSessions.tmod prev.config.sessionsBeforeLongBreak = 0 then
        TimerMode.longBreak
      else
        TimerMode.shortBreak
    else
      TimerMode.work
  { prev with
    isRunning := false
    timers := prev.timers.set prev.activeMode (prev.config.get prev.activeMode * 60)
    activeMode := nextMode
    viewMode := nextMode
    completedSessions := newCompletedSessions }

/-- The one-second interval callback (the `setState` updater inside
`setInterval`): decrement the active phase, flooring at 0.  The returned
`Bool` records whether a `completePhase` transition was scheduled via
`setTimeout(..., 0)` (true exactly when the prior value was `<= 1`). -/
def tickStep (prev : PomodoroState) : PomodoroState × Bool :=
  let currentTime := prev.timers.get prev.activeMode
  if currentTime ≤ 1 then
    ({ prev with timers := prev.timers.set prev.activeMode 0 }, true)
  else
    ({ prev with timers := prev.timers.set prev.activeMode (currentTime - 1) }, false)

/-- `switchView(newMode)` -/
def switchView (newMode : TimerMode) (prev : PomodoroState) : PomodoroState :=
  { prev with viewMode := newMode }

/-- `toggle()` : flips `isRunning`; on the false-to-true edge the active
phase becomes the displayed phase. -/
def toggle (prev : PomodoroState) : PomodoroState :=
  { prev with
    isRunning := !prev.isRunning
    activeMode := if !prev.isRunning then prev.viewMode else prev.activeMode }

/-- `reset()` : stop and refill the displayed phase. -/
def reset (prev : PomodoroState) : PomodoroState :=
  { prev with
    isRunning := false
    timers := prev.timers.set prev.viewMode (prev.config.get prev.viewMode * 60) }

/-- `updateConfig(key, value)` : write the config field, then resize every
phase whose remaining time still equals its old full duration.  The
`m in newConfig` guard of the source is always true (the spread copies every
key), so it is omitted. -/
def updateConfig (key : ConfigKey) (value : Int) (prev : PomodoroState) : PomodoroState :=
  let newConfig := prev.config.set key value
  let t0 := prev.timers
  let t1 := if prev.timers.get .work = prev.config.get .work * 60 then
      t0.set .work (newConfig.get .work * 60) else t0
  let t2 := if prev.timers.get .shortBreak = prev.config.get .shortBreak * 60 then
      t1.set .shortBreak (newConfig.get .shortBreak * 60) else t1
  let t3 := if prev.timers.get .longBreak = prev.config.get .longBreak * 60 then
      t2.set .longBreak (newConfig.get .longBreak * 60) else t2
  { prev with config := newConfig, timers := t3 }

/-- The local-storage slot for the timer key, as seen by the engine:
`none` when the key is absent. -/
def StorageSlot := Option StoredState

/-- `clearValue` from `usePersistedState`: remove the key and reset the
in-memory value to the hook's `defaultValue`, which for this tool is the
hard-coded `DEFAULT_STATE`.  The first variant's `resetAll()` is exactly
this call. -/
def clearState (_store : Option StoredState) : PomodoroState × Option StoredState :=
  (DEFAULT_STATE, none)

/-- `resetAll()` of the `usePersistedState` variant (calls `clearState`). -/
def resetAll (prev : PomodoroState) (store : Option StoredState) :
    PomodoroState × Option StoredState :=
  let _ := prev
  clearState store

/-- `resetAll()` of the second snapshot variant: stop, return to `work`,
refill every phase from the *current* config, zero the session counter, and
remove the storage key.  The config itself is kept. -/
def resetAllSnapshot (prev : PomodoroState) (_store : Option StoredState) :
    PomodoroState × Option StoredState :=
  ({ prev with
      isRunning := false
      activeMode := .work
      viewMode := .work
      timers := getDefaultTimers prev.config
      completedSessions := 0 }, none)

/-- The read side of `usePersistedState` for this tool: `Except.error` means
`localStorage.getItem` threw or `JSON.parse` failed (the `catch` branch);
`Except.ok none` means nothing was stored; otherwise the blob is run through
`deserializeState`. -/
def loadState (loadResult : Except Unit (Option StoredState)) (now : Int) : PomodoroState :=
  match loadResult with
  | .error _ => DEFAULT_STATE
  | .ok none => DEFAULT_STATE
  | .ok (some stored) => deserializeState now stored

/-- The write side of `usePersistedState`: try to store the serialized value;
on failure (`ok = false`, e.g. quota exceeded) the storage slot is left as it
was and the in-memory value is untouched either way. -/
def saveState (ok : Bool) (value : PomodoroState) (now : Int)
    (store : Option StoredState) : PomodoroState × Option StoredState :=
  (value, if ok then some (serializeState now value) else store)

/-- The RemainingByPhase invariant of the spec: every phase's remaining time
lies in `[0, config[phase]*60]` with respect to the state's own config. -/
def stateInvariant (s : PomodoroState) : Prop :=
  ∀ m : TimerMode, 0 ≤ s.timers.get m ∧ s.timers.get m ≤ s.config.get m * 60

instance : DecidablePred stateInvariant := fun s => by
  unfold stateInvariant
  have : (∀ m : TimerMode, 0 ≤ s.timers.get m ∧ s.timers.get m ≤ s.config.get m * 60) ↔
      ((0 ≤ s.timers.get .work ∧ s.timers.get .work ≤ s.config.get .work * 60) ∧
       (0 ≤ s.timers.get .shortBreak ∧ s.timers.get .shortBreak ≤ s.config.get .shortBreak * 60) ∧
       (0 ≤ s.timers.get .longBreak ∧ s.timers.get .longBreak ≤ s.config.get .longBreak * 60)) := by
    constructor
    · intro h
      exact ⟨h .work, h .shortBreak, h .longBreak⟩
    · rintro ⟨hw, hs, hl⟩ m
      cases m
      · exact hw
      · exact hs
      · exact hl
  exact decidable_of_iff _ this.symm

/-! ### Basic lemmas about the phase maps -/

theorem Timers.get_set (t : Timers) (m m' : TimerMode) (v : Int) :
    (t.set m v).get m' = if m' = m then v else t.get m' := by
  cases m <;> cases m' <;> simp [Timers.set, Timers.get]

theorem Timers.get_set_self (t : Timers) (m : TimerMode) (v : Int) :
    (t.set m v).get m = v := by
  cases m <;> rfl

theorem Timers.get_set_ne (t : Timers) (m m' : TimerMode) (v : Int) (h : m' ≠ m) :
    (t.set m v).get m' = t.get m' := by
  rw [Timers.get_set, if_neg h]

theorem TimerConfig.get_set_key (c : TimerConfig) (k : ConfigKey) (v : Int) (m : TimerMode) :
    (c.set k v).get m = if k.toMode = some m then v else c.get m := by
  cases k <;> cases m <;> simp [TimerConfig.set, TimerConfig.get, ConfigKey.toMode]

/-- JavaScript `%` vanishes exactly on multiples. -/
theorem tmod_eq_zero_iff_dvd (x y : Int) : x.tmod y = 0 ↔ y ∣ x := by
  constructor
  · intro h
    exact Int.dvd_of_tmod_eq_zero h
  · intro h
    exact Int.tmod_eq_zero_of_dvd h

/-- `(getDefaultTimers c)[m] = c[m] * 60` for every phase. -/
theorem getDefaultTimers_get (c : TimerConfig) (m : TimerMode) :
    (getDefaultTimers c).get m = c.get m * 60 := by
  cases m <;> rfl

/-- How `updateConfig` rewrites each phase's remaining time: a pristine phase
(remaining equal to its old full duration) is resized to the new full
duration; any other phase keeps its remaining time. -/
theorem updateConfig_timers_get (key : ConfigKey) (value : Int)
    (s : PomodoroState) (m : TimerMode) :
    (updateConfig key value s).timers.get m =
      if s.timers.get m = s.config.get m * 60
        then (s.config.set key value).get m * 60
        else s.timers.get m := by
  cases m <;>
    simp only [updateConfig, Timers.get] <;>
    split_ifs <;>
    simp_all [Timers.set, Timers.get]

/-- `updateConfig` installs exactly the edited config. -/
theorem updateConfig_config (key : ConfigKey) (value : Int) (s : PomodoroState) :
    (updateConfig key value s).config = s.config.set key value := rfl

/-! ### Claim theorems -/

/-- Claim C3: whenever `completePhase` fires, the engine pauses and displays
the next phase; the phase that just completed is refilled to its full
configured duration; completing `Work` increments the session counter and
moves to `LongBreak` exactly when the incremented count is divisible by
`sessionsBeforeLongBreak` (otherwise `ShortBreak`); completing a break moves
back to `Work` without touching the counter. -/
theorem completePhase_spec (s : PomodoroState) :
    (completePhase s).isRunning = false ∧
    (completePhase s).viewMode = (completePhase s).activeMode ∧
    (completePhase s).timers.get s.activeMode = s.config.get s.activeMode * 60 ∧
    (completePhase s).config = s.config ∧
    (completePhase s).completedSessions =
      (if s.activeMode = .work then s.completedSessions + 1 else s.completedSessions) ∧
    (completePhase s).activeMode =
      (if s.activeMode = .work then
        (if s.config.sessionsBeforeLongBreak ∣ s.completedSessions + 1 then
          TimerMode.longBreak
        else
          TimerMode.shortBreak)
      else
        TimerMode.work) := by
  refine ⟨rfl, rfl, Timers.get_set_self _ _ _, rfl, rfl, ?_⟩
  by_cases hw : s.activeMode = .work
  · simp only [completePhase, hw, if_true]
    by_cases hd : s.config.sessionsBeforeLongBreak ∣ s.completedSessions + 1
    · rw [if_pos ((tmod_eq_zero_iff_dvd _ _).mpr hd), if_pos hd]
    · rw [if_neg (fun h => hd ((tmod_eq_zero_iff_dvd _ _).mp h)), if_neg hd]
  · simp only [completePhase, hw, if_false]

/-- Claim C4: `updateConfig` resizes the remaining time to the new full
duration for exactly the phases whose remaining time equals the old full
duration, and leaves every mid-countdown phase's remaining time unchanged,
including the phase whose own duration field was edited. -/
theorem updateConfig_resizes_exactly_pristine (key : ConfigKey) (value : Int)
    (s : PomodoroState) (m : TimerMode) :
    (updateConfig key value s).config = s.config.set key value ∧
    (updateConfig key value s).timers.get m =
      (if s.timers.get m = s.config.get m * 60
        then (s.config.set key value).get m * 60
        else s.timers.get m) :=
  ⟨updateConfig_config key value s, updateConfig_timers_get key value s m⟩

/-- Claim C8: `toggle` flips `isRunning`; on the start edge (`isRunning` was
false) the active phase becomes the displayed phase, on the pause edge it is
kept; remaining times, the displayed phase, the session counter and the
config are untouched in both directions. -/
theorem toggle_spec (s : PomodoroState) :
    (toggle s).isRunning = !s.isRunning ∧
    (toggle s).activeMode = (if s.isRunning = false then s.viewMode else s.activeMode) ∧
    (toggle s).viewMode = s.viewMode ∧
    (toggle s).timers = s.timers ∧
    (toggle s).completedSessions = s.completedSessions ∧
    (toggle s).config = s.config := by
  cases hb : s.isRunning <;> simp [toggle, hb]

/-- Claim C9: storage failures are non-fatal.  A load that throws or yields
malformed JSON (`Except.error`), or finds nothing stored, starts the engine
from the default initial state; a save that throws keeps the in-memory state
for that operation and leaves the storage slot as it was. -/
theorem storage_failures_nonfatal (now : Int) (value : PomodoroState)
    (store : Option StoredState) :
    loadState (Except.error ()) now = DEFAULT_STATE ∧
    loadState (Except.ok none) now = DEFAULT_STATE ∧
    (saveState false value now store).1 = value ∧
    (saveState false value now store).2 = store ∧
    (saveState true value now store).1 = value :=
  ⟨rfl, rfl, rfl, rfl, rfl⟩

/-- Closed form of `deserializeState` on a running snapshot with a truthy
`savedAt`: the catch-up branch is taken. -/
theorem deserializeState_running_eq
    (now t : Int) (stored : StoredState) (a : TimerMode) (tm : Timers)
    (hrun : stored.isRunning = some true)
    (hsaved : stored.savedAt = some t) (ht : t ≠ 0)
    (ha : stored.activeMode = some a) (htm : stored.timers = some tm) :
    deserializeState now stored =
      { activeMode := a
        viewMode := stored.viewMode.getD .work
        timers := tm.set a (max 0 (tm.get a - (now - t).fdiv 1000))
        isRunning := if (tm.set a (max 0 (tm.get a - (now - t).fdiv 1000))).get a = 0
          then false else true
        completedSessions := stored.completedSessions.getD 0
        config := stored.config.getD DEFAULT_CONFIG } := by
  simp [deserializeState, hrun, hsaved, ha, htm, savedAtTruthy, ht]

/-- Claim C1: restoring a running snapshot with a present (truthy) `savedAt`
subtracts `elapsed = floor((now - savedAt)/1000)` seconds from the active
phase's remaining time only, floored at 0, and keeps `isRunning` true
whenever the result is strictly positive. -/
theorem restore_running_subtracts_elapsed
    (now t : Int) (stored : StoredState) (a : TimerMode) (tm : Timers)
    (hrun : stored.isRunning = some true)
    (hsaved : stored.savedAt = some t) (ht : t ≠ 0)
    (ha : stored.activeMode = some a) (htm : stored.timers = some tm) :
    (deserializeState now stored).timers.get a
        = max 0 (tm.get a - (now - t).fdiv 1000) ∧
    (∀ m : TimerMode, m ≠ a → (deserializeState now stored).timers.get m = tm.get m) ∧
    (0 < max 0 (tm.get a - (now - t).fdiv 1000) →
      (deserializeState now stored).isRunning = true) := by
  rw [deserializeState_running_eq now t stored a tm hrun hsaved ht ha htm]
  refine ⟨Timers.get_set_self _ _ _, fun m hm => Timers.get_set_ne _ _ _ _ hm, fun hpos => ?_⟩
  show (if _ = 0 then false else true) = true
  rw [Timers.get_set_self, if_neg (by omega)]

/-- A snapshot persisted 30 seconds ago while `Work` was running with 100
seconds left (the spec's first restore example, with `savedAt = 1000` and
`now = 31000`). -/
def runningSnapshot : StoredState :=
  { activeMode := some .work
    viewMode := some .work
    timers := some { work := 100, shortBreak := 300, longBreak := 900 }
    isRunning := some true
    completedSessions := some 0
    config := some DEFAULT_CONFIG
    savedAt := some 1000
    mode := none }

theorem restore_running_subtracts_elapsed_witness :
    (deserializeState 31000 runningSnapshot).timers.get .work = 70 ∧
    (deserializeState 31000 runningSnapshot).isRunning = true := by
  have h := restore_running_subtracts_elapsed 31000 1000 runningSnapshot .work
    { work := 100, shortBreak := 300, longBreak := 900 } rfl rfl (by decide) rfl rfl
  refine ⟨?_, h.2.2 (by decide)⟩
  rw [h.1]
  decide

/-- Claim C2: when the computed elapsed time meets or exceeds the active
phase's remaining time, restore lands the active phase at exactly 0 and
forces `isRunning` false, while the active mode, the view mode, the session
counter, the config and the other phases' remaining times are taken from the
snapshot unchanged — no retroactive phase completion. -/
theorem restore_overrun_pauses_at_zero
    (now t c : Int) (stored : StoredState) (a v : TimerMode) (tm : Timers)
    (cfg : TimerConfig)
    (hrun : stored.isRunning = some true)
    (hsaved : stored.savedAt = some t) (ht : t ≠ 0)
    (ha : stored.activeMode = some a) (hv : stored.viewMode = some v)
    (htm : stored.timers = some tm) (hc : stored.completedSessions = some c)
    (hcfg : stored.config = some cfg)
    (helapsed : tm.get a ≤ (now - t).fdiv 1000) :
    (deserializeState now stored).timers.get a = 0 ∧
    (deserializeState now stored).isRunning = false ∧
    (deserializeState now stored).activeMode = a ∧
    (deserializeState now stored).viewMode = v ∧
    (deserializeState now stored).completedSessions = c ∧
    (deserializeState now stored).config = cfg ∧
    (∀ m : TimerMode, m ≠ a → (deserializeState now stored).timers.get m = tm.get m) := by
  rw [deserializeState_running_eq now t stored a tm hrun hsaved ht ha htm]
  have hzero : (tm.set a (max 0 (tm.get a - (now - t).fdiv 1000))).get a = 0 := by
    rw [Timers.get_set_self]
    omega
  refine ⟨hzero, ?_, rfl, ?_, ?_, ?_, fun m hm => Timers.get_set_ne _ _ _ _ hm⟩
  · show (if _ = 0 then false else true) = false
    rw [if_pos hzero]
  · show stored.viewMode.getD .work = v
    rw [hv, Option.getD_some]
  · show stored.completedSessions.getD 0 = c
    rw [hc, Option.getD_some]
  · show stored.config.getD DEFAULT_CONFIG = cfg
    rw [hcfg, Option.getD_some]

/-- The spec's second restore example: the same snapshot persisted 200
seconds ago (`savedAt = 1000`, `now = 201000`), exceeding the 100 seconds
that were left. -/
def overrunSnapshot : StoredState :=
  { activeMode := some .work
    viewMode := some .work
    timers := some { work := 100, shortBreak := 300, longBreak := 900 }
    isRunning := some true
    completedSessions := some 0
    config := some DEFAULT_CONFIG
    savedAt := some 1000
    mode := none }

theorem restore_overrun_pauses_at_zero_witness :
    (deserializeState 201000 overrunSnapshot).timers.get .work = 0 ∧
    (deserializeState 201000 overrunSnapshot).isRunning = false ∧
    (deserializeState 201000 overrunSnapshot).activeMode = .work ∧
    (deserializeState 201000 overrunSnapshot).completedSessions = 0 := by
  have h := restore_overrun_pauses_at_zero 201000 1000 0 overrunSnapshot .work .work
    { work := 100, shortBreak := 300, longBreak := 900 } DEFAULT_CONFIG
    rfl rfl (by decide) rfl rfl rfl rfl rfl (by decide)
  exact ⟨h.1, h.2.1, h.2.2.1, h.2.2.2.2.1⟩

/-- Claim C10: a running snapshot whose `savedAt` is absent or `0` (falsy)
skips the elapsed-time catch-up entirely in both restore implementations:
every phase's remaining time is taken verbatim from the snapshot and
`isRunning` stays true. -/
theorem restore_without_savedAt_skips_catchup
    (now : Int) (stored : StoredState) (tm : Timers)
    (hrun : stored.isRunning = some true)
    (hsaved : stored.savedAt = none ∨ stored.savedAt = some 0)
    (htm : stored.timers = some tm) :
    (deserializeState now stored).timers = tm ∧
    (deserializeState now stored).isRunning = true ∧
    (getInitialState now (some stored)).timers = tm ∧
    (getInitialState now (some stored)).isRunning = true := by
  rcases hsaved with h | h <;>
    exact ⟨by simp [deserializeState, hrun, htm, h, savedAtTruthy],
      by simp [deserializeState, hrun, htm, h, savedAtTruthy],
      by simp [getInitialState, hrun, htm, h, savedAtTruthy],
      by simp [getInitialState, hrun, htm, h, savedAtTruthy]⟩

/-- A running snapshot that was persisted without any `savedAt` timestamp. -/
def timestamplessSnapshot : StoredState :=
  { activeMode := some .work
    viewMode := some .work
    timers := some { work := 100, shortBreak := 300, longBreak := 900 }
    isRunning := some true
    completedSessions := some 0
    config := some DEFAULT_CONFIG
    savedAt := none
    mode := none }

theorem restore_without_savedAt_skips_catchup_witness :
    (deserializeState 987654 timestamplessSnapshot).timers
        = { work := 100, shortBreak := 300, longBreak := 900 } ∧
    (deserializeState 987654 timestamplessSnapshot).isRunning = true :=
  ⟨(restore_without_savedAt_skips_catchup 987654 timestamplessSnapshot
      { work := 100, shortBreak := 300, longBreak := 900 } rfl (Or.inl rfl) rfl).1,
   (restore_without_savedAt_skips_catchup 987654 timestamplessSnapshot
      { work := 100, shortBreak := 300, longBreak := 900 } rfl (Or.inl rfl) rfl).2.1⟩

/-- Claim C6 counterexample: after editing the work duration to 30 minutes
(so the current config's full work duration is 1800 seconds), the
`usePersistedState` variant's `resetAll` hands back the hard-coded
`DEFAULT_STATE`, whose work phase holds 25*60 = 1500 seconds — not the
current config's 1800. -/
theorem resetAll_ignores_current_config_cex :
    (resetAll (updateConfig .work 30 DEFAULT_STATE) none).1.timers.get .work
      ≠ (updateConfig .work 30 DEFAULT_STATE).config.get .work * 60 := by
  decide

/-- Claim C6 (amended): the second snapshot variant's `resetAll` restores the
initial state computed from the current config — `activeMode = viewMode =
Work`, every phase refilled to the current `config[phase]*60`, paused, zero
completed sessions, config kept — and removes the storage key; the
`usePersistedState` variant's `resetAll` instead resets to the hard-coded
`DEFAULT_STATE` (default config and durations) while also removing the key. -/
theorem resetAll_variants_spec (s : PomodoroState) (store : Option StoredState) :
    (resetAllSnapshot s store).1.activeMode = .work ∧
    (resetAllSnapshot s store).1.viewMode = .work ∧
    (resetAllSnapshot s store).1.isRunning = false ∧
    (resetAllSnapshot s store).1.completedSessions = 0 ∧
    (resetAllSnapshot s store).1.config = s.config ∧
    (∀ m : TimerMode, (resetAllSnapshot s store).1.timers.get m = s.config.get m * 60) ∧
    (resetAllSnapshot s store).2 = none ∧
    (resetAll s store).1 = DEFAULT_STATE ∧
    (resetAll s store).2 = none :=
  ⟨rfl, rfl, rfl, rfl, rfl, fun m => getDefaultTimers_get s.config m, rfl, rfl, rfl⟩

/-- Claim C7 counterexample: a legacy snapshot that only carries
`mode = longBreak` restores through the `usePersistedState` variant's
`deserializeState` with `activeMode = work`: the legacy field is ignored,
not used as the default. -/
theorem deserializeState_ignores_legacy_mode_cex :
    (deserializeState 0
      { activeMode := none, viewMode := none, timers := none, isRunning := none
        completedSessions := none, config := none, savedAt := none
        mode := some .longBreak }).activeMode ≠ .longBreak := by
  decide

/-- Claim C7 (amended): only the second snapshot variant's `getInitialState`
accepts the older single-`mode` layout, defaulting both missing `activeMode`
and `viewMode` to the legacy `mode` value; the `usePersistedState` variant's
`deserializeState` ignores the legacy field and defaults both to `Work`. -/
theorem getInitialState_accepts_legacy_mode
    (now : Int) (stored : StoredState) (m : TimerMode)
    (ha : stored.activeMode = none) (hv : stored.viewMode = none)
    (hm : stored.mode = some m) :
    (getInitialState now (some stored)).activeMode = m ∧
    (getInitialState now (some stored)).viewMode = m ∧
    (deserializeState now stored).activeMode = .work ∧
    (deserializeState now stored).viewMode = .work := by
  refine ⟨?_, ?_, ?_, ?_⟩ <;>
    · simp only [getInitialState, deserializeState, ha, hv, hm, legacyGet, Option.getD_none]
      split <;> rfl

/-- A persisted blob in the older layout: a single `mode` field, no
`activeMode`/`viewMode`. -/
def legacySnapshot : StoredState :=
  { activeMode := none
    viewMode := none
    timers := some { work := 1500, shortBreak := 300, longBreak := 900 }
    isRunning := some false
    completedSessions := some 2
    config := some DEFAULT_CONFIG
    savedAt := some 1000
    mode := some .shortBreak }

theorem getInitialState_accepts_legacy_mode_witness :
    (getInitialState 5000 (some legacySnapshot)).activeMode = .shortBreak ∧
    (getInitialState 5000 (some legacySnapshot)).viewMode = .shortBreak :=
  ⟨(getInitialState_accepts_legacy_mode 5000 legacySnapshot .shortBreak rfl rfl rfl).1,
   (getInitialState_accepts_legacy_mode 5000 legacySnapshot .shortBreak rfl rfl rfl).2.1⟩

/-- Claim C5 counterexample: the RemainingByPhase bound is not preserved by
`updateConfig`.  From the default state, start the work phase, let one second
tick (remaining 1499 of 1500), then shrink the work duration to 1 minute:
the work phase keeps its 1499 remaining seconds, far above the new bound
`config.work * 60 = 60`. -/
theorem updateConfig_can_break_remaining_bound :
    ¬ stateInvariant (updateConfig .work 1 ((tickStep (toggle DEFAULT_STATE)).1)) := by
  decide

/-- Claim C5 (amended): `remaining[phase] ∈ [0, config[phase]*60]` is
preserved by `tick`, `toggle`, `switchView`, `completePhase`,
`resetCurrentPhase`, both `resetAll` variants, and by restore whenever the
snapshot's remaining times satisfied the bound for the snapshot's config and
`savedAt` does not lie in the future.  `updateConfig` (with a non-negative
value) preserves only the lower bound 0 in general, and keeps pristine
phases exactly at the new full duration; a mid-countdown phase keeps its
remaining time even when the new duration bound falls below it. -/
theorem remaining_bound_preservation (s : PomodoroState) (h : stateInvariant s) :
    stateInvariant (tickStep s).1 ∧
    stateInvariant (toggle s) ∧
    (∀ m : TimerMode, stateInvariant (switchView m s)) ∧
    stateInvariant (completePhase s) ∧
    stateInvariant (reset s) ∧
    (∀ store, stateInvariant (resetAll s store).1) ∧
    (∀ store, stateInvariant (resetAllSnapshot s store).1) ∧
    (∀ (key : ConfigKey) (value : Int), 0 ≤ value →
      ∀ m : TimerMode, 0 ≤ (updateConfig key value s).timers.get m ∧
        (s.timers.get m = s.config.get m * 60 →
          (updateConfig key value s).timers.get m
            = (updateConfig key value s).config.get m * 60)) ∧
    (∀ (now : Int) (stored : StoredState) (tm : Timers) (cfg : TimerConfig),
      stored.timers = some tm → stored.config = some cfg →
      stored.savedAt.getD 0 ≤ now →
      (∀ m : TimerMode, 0 ≤ tm.get m ∧ tm.get m ≤ cfg.get m * 60) →
      stateInvariant (deserializeState now stored)) := by
  refine ⟨?_, ?_, ?_, ?_, ?_, ?_, ?_, ?_, ?_⟩
  · intro m
    have ha := h s.activeMode
    have hm := h m
    simp only [tickStep]
    split <;>
    · simp only [Timers.get_set]
      split_ifs with hEq
      · subst hEq; omega
      · omega
  · intro m
    simpa [toggle] using h m
  · intro v m
    simpa [switchView] using h m
  · intro m
    have ha := h s.activeMode
    have hm := h m
    simp only [completePhase, Timers.get_set]
    split_ifs with hEq
    · subst hEq; omega
    · omega
  · intro m
    have hv := h s.viewMode
    have hm := h m
    simp only [reset, Timers.get_set]
    split_ifs with hEq
    · subst hEq; omega
    · omega
  · intro store
    show stateInvariant DEFAULT_STATE
    decide
  · intro store m
    have hm := h m
    simp only [resetAllSnapshot, getDefaultTimers_get]
    omega
  · intro key value hval m
    have hm := h m
    rw [updateConfig_timers_get, updateConfig_config]
    constructor
    · split_ifs with hp
      · rw [TimerConfig.get_set_key]
        split_ifs <;> omega
      · omega
    · intro hp
      rw [if_pos hp]
  · intro now stored tm cfg htm hcfg hsv hbound
    have he : 0 ≤ (now - stored.savedAt.getD 0).fdiv 1000 :=
      Int.fdiv_nonneg (by omega) (by omega)
    simp only [deserializeState, htm, hcfg, Option.getD_some]
    split
    · intro m
      have hbm := hbound m
      have hba := hbound (stored.activeMode.getD .work)
      simp only [Timers.get_set]
      split_ifs with hEq
      · subst hEq
        exact ⟨le_max_left _ _, max_le (by omega) (by omega)⟩
      · omega
    · intro m
      exact hbound m

theorem remaining_bound_preservation_witness :
    stateInvariant (tickStep DEFAULT_STATE).1 ∧
    stateInvariant (completePhase DEFAULT_STATE) :=
  ⟨(remaining_bound_preservation DEFAULT_STATE (by decide)).1,
   (remaining_bound_preservation DEFAULT_STATE (by decide)).2.2.2.1⟩

end Tools.Pomodoro
